import Mathlib

/-!
Verification of the tauri-pos-printer render/encode pipeline.

The development shallowly embeds the printing core of the repository:
the ESC/POS protocol encoder (`escpos_raster_command`), the 1-bpp bitmap
packer (`to_1bpp_packed`), the paper-waste safety guard of
`print_receipt`, the codepage transcoder, the text rasterizer with its
lazily initialized shared font system, the render-strategy pipeline
state machine, and the React frontend handlers of `App.tsx` as
event-trace functions.  Machine integers are modelled as `Nat` with
explicit `% 2^w` where the source masks or truncates.
-/

/-! ## Protocol encoder (source: `escpos_raster_command`, lib.rs)

The Rust source builds the GS v 0 raster command by pushing the four
header bytes, the width-in-bytes field as `(width_bytes & 0xFF)` and
`((width_bytes >> 8) & 0xFF)`, the height field likewise, and then the
packed bitmap.  `width_px` and `height_px` are `u32`; the sum
`width_px + 7` is therefore taken modulo `2^32`. -/

def escpos_raster_command (width_px height_px : Nat) (bitmap : List Nat) : List Nat :=
  let width_bytes := ((width_px + 7) % 4294967296) / 8
  [0x1D, 0x76, 0x30, 0x00,
   width_bytes % 256, (width_bytes / 256) % 256,
   height_px % 256, (height_px / 256) % 256] ++ bitmap

/-- The width-in-bytes a raster command declares to the device: the
little-endian 16-bit field at offsets 4 and 5 of the command. -/
def declaredWidthBytes (cmd : List Nat) : Nat :=
  cmd.getD 4 0 + 256 * cmd.getD 5 0

/-- The height a raster command declares to the device: the
little-endian 16-bit field at offsets 6 and 7 of the command. -/
def declaredHeight (cmd : List Nat) : Nat :=
  cmd.getD 6 0 + 256 * cmd.getD 7 0

/-- The raster payload that follows the 8-byte command header. -/
def rasterPayload (cmd : List Nat) : List Nat :=
  cmd.drop 8

/-! ## Bitmap packer (threshold from source, packing modelled from the spec)

The source snippet fixes the threshold: a pixel prints (bit set) exactly
when its gray value is `< 128`, with the bit placed at `1 << (7 - x % 8)`.
The surrounding loop is not under `src/`. -/

/-- Whether pixel `x` of row `y` is foreground: inside the row and with
gray value below the mid-luminance threshold 128 (source:
`if gray_val < 128 ... 1 << bit_idx`).  Pixels past the row width are
padding and stay background. -/
def pixelOn (width : Nat) (gray : List Nat) (y x : Nat) : Bool :=
  decide (x < width) && decide (gray.getD (y * width + x) 255 < 128)

/-- Modelled from the spec: one packed byte covers 8 horizontal pixels,
most-significant-bit first; byte `xb` of row `y` packs pixels
`8*xb .. 8*xb+7`.  The fold shifts the accumulator left and appends the
next pixel bit, so pixel `8*xb` lands in bit 7. -/
def packByte (width : Nat) (gray : List Nat) (y xb : Nat) : Nat :=
  List.foldl (fun acc j => 2 * acc + (if pixelOn width gray y (8 * xb + j) then 1 else 0))
    0 (List.range 8)

/-- Modelled from the spec: `to_1bpp_packed` packs the grayscale bitmap
8 pixels per byte, most-significant-bit first, row-major, each row
rounded up to a whole byte; the foreground threshold is the source's
`gray_val < 128`.  Byte `i` of the output is byte `i % width_bytes` of
row `i / width_bytes`. -/
def to_1bpp_packed (width height : Nat) (gray : List Nat) : List Nat :=
  let width_bytes := (width + 7) / 8
  (List.range (width_bytes * height)).map
    (fun i => packByte width gray (i / width_bytes) (i % width_bytes))

/-- Read back the classification of pixel `(x, y)` from a packed raster:
bit `7 - x % 8` of byte `x / 8` of row `y`. -/
def unpackPixel (width : Nat) (packed : List Nat) (x y : Nat) : Bool :=
  decide ((packed.getD (y * ((width + 7) / 8) + x / 8) 0) / 2 ^ (7 - x % 8) % 2 = 1)

/-- Canonical gray value of a classified pixel: foreground renders in
the darkest tone, background in the lightest. -/
def reThreshold (fg : Bool) : Nat :=
  if fg then 0 else 255

/-! ### Packer facts -/

theorem to_1bpp_packed_length (width height : Nat) (gray : List Nat) :
    (to_1bpp_packed width height gray).length = ((width + 7) / 8) * height := by
  simp [to_1bpp_packed]

theorem to_1bpp_packed_getD (width height : Nat) (gray : List Nat) (i : Nat)
    (hi : i < ((width + 7) / 8) * height) :
    (to_1bpp_packed width height gray).getD i 0 =
      packByte width gray (i / ((width + 7) / 8)) (i % ((width + 7) / 8)) := by
  simp only [to_1bpp_packed]
  rw [List.getD_eq_getElem?_getD, List.getElem?_map, List.getElem?_range hi]
  simp

theorem msb_fold_bit {b0 b1 b2 b3 b4 b5 b6 b7 : Nat} (r : Nat)
    (h0 : b0 ≤ 1) (h1 : b1 ≤ 1) (h2 : b2 ≤ 1) (h3 : b3 ≤ 1)
    (h4 : b4 ≤ 1) (h5 : b5 ≤ 1) (h6 : b6 ≤ 1) (h7 : b7 ≤ 1) (hr : r < 8) :
    (2 * (2 * (2 * (2 * (2 * (2 * (2 * (2 * 0 + b0) + b1) + b2) + b3) + b4) + b5) + b6) + b7)
        / 2 ^ (7 - r) % 2
      = [b0, b1, b2, b3, b4, b5, b6, b7].getD r 0 := by
  interval_cases r <;> simp [List.getD] <;> omega

theorem packByte_testBit (w : Nat) (gray : List Nat) (y xb r : Nat) (hr : r < 8) :
    packByte w gray y xb / 2 ^ (7 - r) % 2
      = if pixelOn w gray y (8 * xb + r) then 1 else 0 := by
  have hrange : List.range 8 = [0, 1, 2, 3, 4, 5, 6, 7] := rfl
  have H : ∀ j, (if pixelOn w gray y j then (1 : Nat) else 0) ≤ 1 := by
    intro j; split <;> omega
  simp only [packByte, hrange, List.foldl]
  rw [msb_fold_bit r (H _) (H _) (H _) (H _) (H _) (H _) (H _) (H _) hr]
  interval_cases r <;> rfl

theorem to_1bpp_unpack (w h : Nat) (gray : List Nat) (x y : Nat)
    (hx : x < w) (hy : y < h) :
    unpackPixel w (to_1bpp_packed w h gray) x y
      = decide (gray.getD (y * w + x) 255 < 128) := by
  have hwb : 0 < (w + 7) / 8 := by omega
  have hx8 : x / 8 < (w + 7) / 8 := by omega
  have hi : y * ((w + 7) / 8) + x / 8 < ((w + 7) / 8) * h := by
    have h1 : y * ((w + 7) / 8) + x / 8 < (y + 1) * ((w + 7) / 8) := by
      rw [Nat.succ_mul]; exact Nat.add_lt_add_left hx8 _
    have h2 : (y + 1) * ((w + 7) / 8) ≤ h * ((w + 7) / 8) :=
      Nat.mul_le_mul_right _ hy
    rw [Nat.mul_comm ((w + 7) / 8) h]
    exact Nat.lt_of_lt_of_le h1 h2
  simp only [unpackPixel]
  rw [to_1bpp_packed_getD _ _ _ _ hi]
  have hdiv : (y * ((w + 7) / 8) + x / 8) / ((w + 7) / 8) = y := by
    rw [Nat.mul_comm y ((w + 7) / 8), Nat.mul_add_div hwb, Nat.div_eq_of_lt hx8,
      Nat.add_zero]
  have hmod : (y * ((w + 7) / 8) + x / 8) % ((w + 7) / 8) = x / 8 := by
    rw [Nat.mul_comm y ((w + 7) / 8), Nat.mul_add_mod, Nat.mod_eq_of_lt hx8]
  rw [hdiv, hmod]
  rw [packByte_testBit w gray y (x / 8) (x % 8) (Nat.mod_lt _ (by omega))]
  have hx8' : 8 * (x / 8) + x % 8 = x := by omega
  rw [hx8']
  by_cases hg : gray.getD (y * w + x) 255 < 128 <;> simp [pixelOn, hx, hg]

/-! ## Safety guard (source: `print_receipt` height check, docs/EMERGENCY_FIX.md)

`print_receipt` renders each receipt line, checks the bitmap height
before packing, and aborts the whole command stream on an oversized
bitmap.  Only the guard itself appears under `src/`; the surrounding
function body is modelled from the spec. -/

/-- Modelled from the spec: processing of one rendered line inside
`print_receipt` — reject any bitmap taller than the configured maximum
(100 px, source: `if h > 100 ... return Err`), otherwise pack it and
emit its raster command bytes. -/
def print_receipt_line (width height : Nat) (gray : List Nat) : Except String (List Nat) :=
  if height > 100 then
    Except.error ("Bitmap too tall: " ++ toString height ++ " pixels. Aborting to save paper!")
  else
    Except.ok (escpos_raster_command width height (to_1bpp_packed width height gray))

/-! ## Wire layout of the Raster command, from the spec table -/

/-- Little-endian byte pair of the 16-bit value `n % 2^16`. -/
def le16 (n : Nat) : List Nat :=
  [n % 256, n % 65536 / 256]

/-- Modelled from the spec: the external-interface table row
`Raster | 1D 76 30 00 (xL xH) (yL yH) (data)` with x = width/8 rounded
up (little-endian 16-bit) and y = height (little-endian 16-bit). -/
def raster_wire_layout (width_px height_px : Nat) (data : List Nat) : List Nat :=
  [0x1D, 0x76, 0x30, 0x00] ++ le16 ((width_px + 7) / 8) ++ le16 height_px ++ data

/-! ## Codepage transcoder (modelled from the spec)

The repository converts UTF-8 text to a legacy single-byte codepage
(Windows-1256) before sending it; the conversion function itself is not
under `src/`.  A codepage is its decode table `tbl : Nat → Nat`, giving
the code point shown for each byte value; `transcode` maps each code
point to a byte of the table and fails fast on the first code point the
table cannot represent. -/

/-- The byte a legacy table assigns to code point `c`: the first byte
value whose table entry is `c`, if any. -/
def encodeChar (tbl : Nat → Nat) (c : Nat) : Option Nat :=
  (List.range 256).find? (fun b => tbl b == c)

/-- Modelled from the spec: `transcode(text, target_codepage)` maps each
code point to its byte in the legacy table and fails fast on the first
unmappable code point, never substituting a placeholder byte. -/
def transcode (tbl : Nat → Nat) : List Nat → Except Nat (List Nat)
  | [] => Except.ok []
  | c :: rest =>
    match encodeChar tbl c with
    | none => Except.error c
    | some b =>
      match transcode tbl rest with
      | Except.error c2 => Except.error c2
      | Except.ok bs => Except.ok (b :: bs)

/-- Decoding a byte stream with the same legacy table: each byte shows
the table's code point. -/
def decodeBytes (tbl : Nat → Nat) (bs : List Nat) : List Nat :=
  bs.map tbl

/-- Sample legacy table used by concrete witnesses: byte value `b`
decodes to code point `b` (an identity table over 0..255). -/
def sampleTable (b : Nat) : Nat := b

/-! ## Text rasterizer and shared font system

`FONT_SYSTEM` is a `Lazy`-initialized process-wide font system (source:
lib.rs static); the rasterizer body is not under `src/`.  The model
keeps the observable that the claims are about: the bitmap height is
the wrapped line count at the given width times the per-line height,
and the lazily initialized global can only ever hold the single value
produced by its fixed initializer. -/

/-- The shared font system capability; the model keeps the one datum
line wrapping reads from it, an advance width per glyph. -/
structure FontSystem where
  charWidth : Nat

/-- Modelled from the spec: the value the `Lazy` initializer of
`FONT_SYSTEM` always produces (system fonts with locale "ar"). -/
def defaultFontSystem : FontSystem :=
  { charWidth := 12 }

/-- Reading the lazily initialized global: initialize on first use,
afterwards return the stored value unchanged. -/
def getFontSystem : Option FontSystem → FontSystem × Option FontSystem
  | none => (defaultFontSystem, some defaultFontSystem)
  | some fs => (fs, some fs)

/-- States the `Lazy` static can actually be in: uninitialized, or
holding the initializer's value. -/
def fontStateReachable (st : Option FontSystem) : Prop :=
  st = none ∨ st = some defaultFontSystem

/-- Modelled from the spec: number of wrapped lines of a text of
`textLen` glyphs of width `charW` at `maxW` pixels (at least one). -/
def wrappedLineCount (textLen charW maxW : Nat) : Nat :=
  if maxW = 0 then 1 else max 1 ((textLen * charW + maxW - 1) / maxW)

/-- Modelled from the spec: pixel height of one text line at the given
font size (1.2 line spacing). -/
def lineHeightPx (font_size : Nat) : Nat :=
  font_size * 6 / 5

/-- Modelled from the spec: `render_text_to_bitmap(text, max_width_px,
font_size)` returns `(grayscale, width, height)` plus the possibly
newly initialized font-system state; the height is the wrapped line
count times the line height.  Glyph drawing itself is absent from
`src/` and not modelled — the canvas starts in the uniform background
tone. -/
def render_text_to_bitmap (text : List Nat) (max_width_px font_size : Nat)
    (st : Option FontSystem) : (List Nat × Nat × Nat) × Option FontSystem :=
  let p := getFontSystem st
  let height := wrappedLineCount text.length p.1.charWidth max_width_px * lineHeightPx font_size
  ((List.replicate (max_width_px * height) 255, max_width_px, height), p.2)

/-- Height component of a `(grayscale, width, height)` bitmap triple. -/
def bitmapHeight (r : List Nat × Nat × Nat) : Nat :=
  r.2.2

/-! ## Render strategy pipeline (modelled from the spec, §4.6) -/

/-- Modelled from the spec: the tagged-variant rendering strategies. -/
inductive RenderStrategy where
  | DirectText (codepage : Nat)
  | RasterBitmap (fontSize maxHeight : Nat)
  | HostCompositor
  | InteractiveDialog

/-- Recoverable failures of the Encoding phase: an unmappable code
point from the Transcoder, or an oversized bitmap from the
Rasterizer/Packer. -/
inductive EncodeFailure where
  | UnsupportedGlyph (codepoint : Nat)
  | OversizedBitmap (height : Nat)

/-- Modelled from the spec: states of the render-strategy pipeline. -/
inductive PipeState where
  | Selecting (untried : List RenderStrategy)
  | Encoding (current : RenderStrategy) (untried : List RenderStrategy)
      (history : List EncodeFailure)
  | Transmitting (current : RenderStrategy) (untried : List RenderStrategy)
      (bytes : List Nat)
  | Retrying (next : RenderStrategy) (untried : List RenderStrategy)
      (history : List EncodeFailure)
  | Succeeded
  | Failed (history : List EncodeFailure)

/-- Modelled from the spec: the transition out of the `Encoding` state.
A successful build moves to `Transmitting`; a Transcoder or
Rasterizer/Packer failure moves to `Retrying` with the next untried
strategy, or to `Failed` only when the strategy list is exhausted. -/
def encodingStep (current : RenderStrategy) (untried : List RenderStrategy)
    (history : List EncodeFailure) (outcome : Except EncodeFailure (List Nat)) :
    PipeState :=
  match outcome with
  | Except.ok bytes => PipeState.Transmitting current untried bytes
  | Except.error e =>
    match untried with
    | [] => PipeState.Failed (history ++ [e])
    | s :: rest => PipeState.Retrying s rest (history ++ [e])

/-! ## Frontend handlers (source: src/App.tsx)

Each React handler is embedded as a function from its inputs (the
`selectedPrinter` / host / port state it reads, and the outcome of each
awaited call) to the ordered list of state updates and backend
invocations it performs.  A `finally` block corresponds to the trailing
`setLoading false` on both match branches. -/

structure PrinterInfo where
  name : String
  system_name : String

structure AppState where
  printers : List PrinterInfo
  selectedPrinter : String
  message : String
  loading : Bool

inductive UiEvent where
  | setMessage (m : String)
  | setLoading (b : Bool)
  | setPrinters (ps : List PrinterInfo)
  | setSelectedPrinter (p : String)
  | invokeBackend (cmd : String)

def applyEvent (s : AppState) : UiEvent → AppState
  | UiEvent.setMessage m => { s with message := m }
  | UiEvent.setLoading b => { s with loading := b }
  | UiEvent.setPrinters ps => { s with printers := ps }
  | UiEvent.setSelectedPrinter p => { s with selectedPrinter := p }
  | UiEvent.invokeBackend _ => s

def applyEvents (s : AppState) (tr : List UiEvent) : AppState :=
  tr.foldl applyEvent s

/-- Tail of every handler body: show the backend result, or the catch
branch's error message built from the handler's own tag. -/
def uiResult (errTag : String) (backend : Except String String) : List UiEvent :=
  match backend with
  | Except.ok r => [UiEvent.setMessage r]
  | Except.error e => [UiEvent.setMessage (errTag ++ e)]

def printReceiptTrace (selected : String) (backend : Except String String) : List UiEvent :=
  if selected = "" then [UiEvent.setMessage "Please select a printer first"]
  else
    [UiEvent.setLoading true, UiEvent.setMessage "Printing...",
     UiEvent.invokeBackend "print_receipt"] ++
      uiResult "Error printing: " backend ++ [UiEvent.setLoading false]

def printReceiptHTMLTrace (selected : String) (backend : Except String String) : List UiEvent :=
  if selected = "" then [UiEvent.setMessage "Please select a printer first"]
  else
    [UiEvent.setLoading true, UiEvent.setMessage "Opening print dialog...",
     UiEvent.invokeBackend "print_receipt_html"] ++
      uiResult "Error printing: " backend ++ [UiEvent.setLoading false]

def printReceiptSilentTrace (selected : String) (backend : Except String String) : List UiEvent :=
  if selected = "" then [UiEvent.setMessage "Please select a printer first"]
  else
    [UiEvent.setLoading true, UiEvent.setMessage "Printing silently...",
     UiEvent.invokeBackend "print_receipt_silent"] ++
      uiResult "Error printing: " backend ++ [UiEvent.setLoading false]

def printReceiptTextModeTrace (selected : String) (backend : Except String String) : List UiEvent :=
  if selected = "" then [UiEvent.setMessage "Please select a printer first"]
  else
    [UiEvent.setLoading true, UiEvent.setMessage "Printing silently (TEXT mode)...",
     UiEvent.invokeBackend "print_receipt_text_mode"] ++
      uiResult "Error printing: " backend ++ [UiEvent.setLoading false]

def printReceiptAsImageTrace (selected : String) (canvas backend : Except String String) :
    List UiEvent :=
  if selected = "" then [UiEvent.setMessage "Please select a printer first"]
  else
    [UiEvent.setLoading true, UiEvent.setMessage "Rendering receipt...",
     UiEvent.setMessage "Capturing as image..."] ++
      (match canvas with
       | Except.error e => [UiEvent.setMessage ("Error printing: " ++ e)]
       | Except.ok _ =>
         [UiEvent.setMessage "Sending to printer...",
          UiEvent.invokeBackend "print_receipt_image"] ++
           uiResult "Error printing: " backend) ++ [UiEvent.setLoading false]

def loadPrintersTrace (backend : Except String (List PrinterInfo)) : List UiEvent :=
  [UiEvent.setLoading true, UiEvent.invokeBackend "get_thermal_printers"] ++
    (match backend with
     | Except.ok ps =>
       UiEvent.setPrinters ps ::
         (match ps with
          | p :: _ =>
            [UiEvent.setSelectedPrinter p.system_name,
             UiEvent.setMessage ("Found " ++ toString ps.length ++ " thermal printer(s)")]
          | [] =>
            [UiEvent.setMessage "No thermal printers found. Please connect a thermal printer."])
     | Except.error e => [UiEvent.setMessage ("Error loading printers: " ++ e)]) ++
    [UiEvent.setLoading false]

def escposPrintTextTrace (host : String) (port : Nat) (backend : Except String String) :
    List UiEvent :=
  if host = "" ∨ port = 0 then
    [UiEvent.setMessage "Please enter printer IP/Host and port (default 9100)."]
  else
    [UiEvent.setLoading true,
     UiEvent.setMessage "Sending Arabic text via escpos-rs (network)...",
     UiEvent.invokeBackend "escpos_print_text_ar"] ++
      uiResult "Error (escpos text): " backend ++ [UiEvent.setLoading false]

def escposPrintImageTrace (host : String) (port : Nat) (canvas backend : Except String String) :
    List UiEvent :=
  if host = "" ∨ port = 0 then
    [UiEvent.setMessage "Please enter printer IP/Host and port (default 9100)."]
  else
    [UiEvent.setLoading true,
     UiEvent.setMessage "Rendering receipt as image (RTL Arabic) and sending via escpos-rs..."] ++
      (match canvas with
       | Except.error e => [UiEvent.setMessage ("Error (escpos image): " ++ e)]
       | Except.ok _ =>
         UiEvent.invokeBackend "escpos_print_image" ::
           uiResult "Error (escpos image): " backend) ++ [UiEvent.setLoading false]

def escposDemoFormatArTrace (host : String) (port : Nat) (backend : Except String String) :
    List UiEvent :=
  if host = "" ∨ port = 0 then
    [UiEvent.setMessage "Please enter printer IP/Host and port (default 9100)."]
  else
    [UiEvent.setLoading true, UiEvent.setMessage "Sending escpos demo (Arabic)...",
     UiEvent.invokeBackend "escpos_demo_format_ar"] ++
      uiResult "Error (escpos demo): " backend ++ [UiEvent.setLoading false]

def escposSerialCustomTrace (backend : Except String String) : List UiEvent :=
  [UiEvent.setLoading true, UiEvent.setMessage "Sending serial Arabic test...",
   UiEvent.invokeBackend "escpos_print_text_ar_custom_serial"] ++
    uiResult "Error (serial custom): " backend ++ [UiEvent.setLoading false]

/-- Loading-flag discipline of a handler trace, checked while replaying
it: every backend invocation happens while the loading flag is set, and
the flag is clear once the trace ends. -/
def tracksLoading : Bool → List UiEvent → Bool
  | load, [] => !load
  | _, UiEvent.setLoading b :: rest => tracksLoading b rest
  | load, UiEvent.invokeBackend _ :: rest => load && tracksLoading load rest
  | load, _ :: rest => tracksLoading load rest

/-! ## Claims C1 - C4: encoder and packer -/

theorem raster_cmd_declaredWidthBytes (w h : Nat) (bmp : List Nat) :
    declaredWidthBytes (escpos_raster_command w h bmp)
      = ((w + 7) % 4294967296) / 8 % 65536 := by
  show ((w + 7) % 4294967296) / 8 % 256
      + 256 * (((w + 7) % 4294967296) / 8 / 256 % 256) = _
  omega

theorem raster_cmd_declaredHeight (w h : Nat) (bmp : List Nat) :
    declaredHeight (escpos_raster_command w h bmp) = h % 65536 := by
  show h % 256 + 256 * (h / 256 % 256) = _
  omega

theorem raster_cmd_payload (w h : Nat) (bmp : List Nat) :
    rasterPayload (escpos_raster_command w h bmp) = bmp := rfl

/-- C1 (amended): for every raster command built from a bitmap packed by
`to_1bpp_packed` for the same width and height, PROVIDED the computed
width in bytes and the height each fit the 16-bit header fields
(`(width+7)/8 < 65536` and `height < 65536`), the declared width_bytes
times the declared height equals the byte length of the raster payload
following the 8-byte header. -/
theorem C1_raster_payload_invariant (w h : Nat) (gray : List Nat)
    (hwb : (w + 7) / 8 < 65536) (hh : h < 65536) :
    declaredWidthBytes (escpos_raster_command w h (to_1bpp_packed w h gray))
        * declaredHeight (escpos_raster_command w h (to_1bpp_packed w h gray))
      = (rasterPayload (escpos_raster_command w h (to_1bpp_packed w h gray))).length := by
  rw [raster_cmd_declaredWidthBytes, raster_cmd_declaredHeight, raster_cmd_payload,
    to_1bpp_packed_length]
  have hmod : (w + 7) % 4294967296 = w + 7 := Nat.mod_eq_of_lt (by omega)
  rw [hmod, Nat.mod_eq_of_lt hwb, Nat.mod_eq_of_lt hh]

theorem C1_raster_payload_invariant_witness :
    (8 + 7) / 8 < 65536 ∧ 2 < 65536 ∧
      declaredWidthBytes (escpos_raster_command 8 2 (to_1bpp_packed 8 2 (List.replicate 16 0)))
          * declaredHeight (escpos_raster_command 8 2 (to_1bpp_packed 8 2 (List.replicate 16 0)))
        = (rasterPayload (escpos_raster_command 8 2
            (to_1bpp_packed 8 2 (List.replicate 16 0)))).length :=
  ⟨by decide, by decide,
    C1_raster_payload_invariant 8 2 (List.replicate 16 0) (by decide) (by decide)⟩

/-- C1 counterexample: at width 8 and height 65536 the height field of
the command header wraps to 0, so the declared width_bytes times the
declared height is 0 while the packed payload that follows is 65536
bytes long — the claim as stated fails for this emitted command. -/
theorem C1_counterexample :
    ¬ (declaredWidthBytes (escpos_raster_command 8 65536
            (to_1bpp_packed 8 65536 (List.replicate 524288 255)))
          * declaredHeight (escpos_raster_command 8 65536
            (to_1bpp_packed 8 65536 (List.replicate 524288 255)))
        = (rasterPayload (escpos_raster_command 8 65536
            (to_1bpp_packed 8 65536 (List.replicate 524288 255)))).length) := by
  rw [raster_cmd_declaredWidthBytes, raster_cmd_declaredHeight, raster_cmd_payload,
    to_1bpp_packed_length]
  decide

/-- C2: any bitmap taller than the configured maximum of 100 pixels is
rejected with an error by the guarded line printer, and no raster bytes
at all are produced for it. -/
theorem C2_oversize_rejected (w h : Nat) (gray : List Nat) (hh : 100 < h) :
    print_receipt_line w h gray
        = Except.error ("Bitmap too tall: " ++ toString h ++ " pixels. Aborting to save paper!")
      ∧ ∀ bs, print_receipt_line w h gray ≠ Except.ok bs := by
  constructor
  · simp [print_receipt_line, hh]
  · intro bs
    simp [print_receipt_line, hh]

theorem C2_oversize_rejected_witness :
    100 < 101 ∧
      (print_receipt_line 384 101 []
          = Except.error ("Bitmap too tall: " ++ toString 101 ++ " pixels. Aborting to save paper!")
        ∧ ∀ bs, print_receipt_line 384 101 [] ≠ Except.ok bs) :=
  ⟨by decide, C2_oversize_rejected 384 101 [] (by decide)⟩

/-- C3: packing a width x height bitmap yields exactly
ceil(width/8) * height bytes, the bit read back for pixel (x, y)
(most-significant-bit first, row-major) is set exactly when the pixel's
gray value is below the mid-luminance threshold 128, and re-thresholding
the canonical rendering of that classification at the same boundary
reproduces the classification. -/
theorem C3_pack_shape (w h : Nat) (gray : List Nat) (hlen : gray.length = w * h) :
    (to_1bpp_packed w h gray).length = ((w + 7) / 8) * h ∧
      ∀ x y, x < w → y < h →
        (unpackPixel w (to_1bpp_packed w h gray) x y
            = decide (gray.getD (y * w + x) 255 < 128)
          ∧ (reThreshold (unpackPixel w (to_1bpp_packed w h gray) x y) < 128
              ↔ unpackPixel w (to_1bpp_packed w h gray) x y = true)) := by
  refine ⟨to_1bpp_packed_length w h gray, ?_⟩
  intro x y hx hy
  refine ⟨to_1bpp_unpack w h gray x y hx hy, ?_⟩
  cases hb : unpackPixel w (to_1bpp_packed w h gray) x y <;> simp [reThreshold, hb]

theorem C3_pack_shape_witness :
    (to_1bpp_packed 8 1 [0, 255, 0, 255, 0, 255, 0, 255]).length = ((8 + 7) / 8) * 1 ∧
      (unpackPixel 8 (to_1bpp_packed 8 1 [0, 255, 0, 255, 0, 255, 0, 255]) 0 0
          = decide (([0, 255, 0, 255, 0, 255, 0, 255] : List Nat).getD (0 * 8 + 0) 255 < 128)
        ∧ (reThreshold (unpackPixel 8 (to_1bpp_packed 8 1 [0, 255, 0, 255, 0, 255, 0, 255]) 0 0) < 128
            ↔ unpackPixel 8 (to_1bpp_packed 8 1 [0, 255, 0, 255, 0, 255, 0, 255]) 0 0 = true)) :=
  ⟨(C3_pack_shape 8 1 [0, 255, 0, 255, 0, 255, 0, 255] (by decide)).1,
    (C3_pack_shape 8 1 [0, 255, 0, 255, 0, 255, 0, 255] (by decide)).2 0 0
      (by decide) (by decide)⟩

/-- C4: for every width and height in the u32 domain, the serialized
raster command is the four bytes 1D 76 30 00, then the width in bytes
(width/8 rounded up) as a little-endian 16-bit field (xL then xH), then
the height as a little-endian 16-bit field (yL then yH), then the packed
bitmap data. -/
theorem C4_wire_layout (w h : Nat) (data : List Nat) (hw : w + 7 < 4294967296) :
    escpos_raster_command w h data = raster_wire_layout w h data := by
  have e1 : ∀ n : Nat, n / 256 % 256 = n % 65536 / 256 := by
    intro n; omega
  simp only [escpos_raster_command, raster_wire_layout, le16, Nat.mod_eq_of_lt hw, e1]
  simp

theorem C4_wire_layout_witness :
    8 + 7 < 4294967296 ∧
      escpos_raster_command 8 100 [170] = raster_wire_layout 8 100 [170] :=
  ⟨by decide, C4_wire_layout 8 100 [170] (by decide)⟩

/-! ## Claims C5 - C8: transcoder, pipeline, rasterizer -/

/-- C5: `transcode` fails at the first code point the legacy table has
no byte for, returning that code point as the error, and a successful
transcode pairs every input code point with its own table byte — the
output never contains a substituted placeholder byte. -/
theorem C5_fail_fast (tbl : Nat → Nat) (text : List Nat) :
    (∀ c, text.find? (fun c0 => (encodeChar tbl c0).isNone) = some c →
        transcode tbl text = Except.error c)
      ∧ ∀ bs, transcode tbl text = Except.ok bs →
          List.Forall₂ (fun c b => encodeChar tbl c = some b) text bs := by
  induction text with
  | nil =>
    constructor
    · intro c hc
      simp [List.find?] at hc
    · intro bs hbs
      simp [transcode] at hbs
      subst hbs
      exact List.Forall₂.nil
  | cons c0 rest ih =>
    cases hpc : encodeChar tbl c0 with
    | none =>
      constructor
      · intro c hc
        rw [List.find?_cons_of_pos _ (by simp [hpc])] at hc
        cases hc
        simp [transcode, hpc]
      · intro bs hbs
        simp [transcode, hpc] at hbs
    | some b =>
      constructor
      · intro c hc
        rw [List.find?_cons_of_neg _ (by simp [hpc])] at hc
        simp [transcode, hpc, ih.1 c hc]
      · intro bs hbs
        cases hrest : transcode tbl rest with
        | error c2 => simp [transcode, hpc, hrest] at hbs
        | ok bs2 =>
          simp [transcode, hpc, hrest] at hbs
          subst hbs
          exact List.Forall₂.cons hpc (ih.2 bs2 hrest)

theorem C5_fail_fast_witness :
    transcode sampleTable [1000, 65] = Except.error 1000 ∧
      List.Forall₂ (fun c b => encodeChar sampleTable c = some b) [65] [65] :=
  ⟨(C5_fail_fast sampleTable [1000, 65]).1 1000 (by decide),
    (C5_fail_fast sampleTable [65]).2 [65] rfl⟩

/-- C6: when every code point of the text has a byte in the legacy
table, `transcode` succeeds and decoding the transcoded bytes with the
same table yields the original text exactly. -/
theorem C6_roundtrip (tbl : Nat → Nat) (text : List Nat)
    (hcov : ∀ c ∈ text, ∃ b, b < 256 ∧ tbl b = c) :
    ∃ bs, transcode tbl text = Except.ok bs ∧ decodeBytes tbl bs = text := by
  induction text with
  | nil => exact ⟨[], rfl, rfl⟩
  | cons c0 rest ih =>
    obtain ⟨b, hb, htb⟩ := hcov c0 (List.mem_cons_self c0 rest)
    have hsome : (encodeChar tbl c0).isSome := by
      rw [encodeChar, List.find?_isSome]
      exact ⟨b, List.mem_range.mpr hb, by simp [htb]⟩
    obtain ⟨b2, hb2⟩ := Option.isSome_iff_exists.mp hsome
    have htb2 : tbl b2 = c0 := by
      have := List.find?_some hb2
      simpa using this
    obtain ⟨bs, hbs, hdec⟩ := ih (fun c hc => hcov c (List.mem_cons_of_mem _ hc))
    refine ⟨b2 :: bs, ?_, ?_⟩
    · simp only [transcode, hb2, hbs]
    · simp only [decodeBytes, List.map_cons, htb2]
      simp only [decodeBytes] at hdec
      rw [hdec]

theorem C6_roundtrip_witness :
    ∃ bs, transcode sampleTable [65, 97] = Except.ok bs ∧
      decodeBytes sampleTable bs = [65, 97] :=
  C6_roundtrip sampleTable [65, 97] (by
    intro c hc
    simp at hc
    rcases hc with rfl | rfl
    · exact ⟨65, by decide, rfl⟩
    · exact ⟨97, by decide, rfl⟩)

/-- C7: in the `Encoding` state, a Transcoder UnsupportedGlyph or a
Rasterizer/Packer OversizedBitmap failure moves the pipeline to
`Retrying` with the next untried strategy whenever one remains, and the
step reaches `Failed` only when the strategy list is exhausted. -/
theorem C7_encoding_fallback (current : RenderStrategy) (untried : List RenderStrategy)
    (history : List EncodeFailure) (e : EncodeFailure) :
    (∀ s rest, untried = s :: rest →
        encodingStep current untried history (Except.error e)
          = PipeState.Retrying s rest (history ++ [e]))
      ∧ (∀ hist2, encodingStep current untried history (Except.error e)
            = PipeState.Failed hist2 → untried = []) := by
  constructor
  · intro s rest h
    subst h
    rfl
  · intro hist2 hfail
    cases untried with
    | nil => rfl
    | cons s rest => simp [encodingStep] at hfail

theorem C7_encoding_fallback_witness :
    encodingStep RenderStrategy.HostCompositor [RenderStrategy.InteractiveDialog] []
        (Except.error (EncodeFailure.UnsupportedGlyph 1500))
      = PipeState.Retrying RenderStrategy.InteractiveDialog []
          ([] ++ [EncodeFailure.UnsupportedGlyph 1500]) :=
  (C7_encoding_fallback RenderStrategy.HostCompositor [RenderStrategy.InteractiveDialog] []
    (EncodeFailure.UnsupportedGlyph 1500)).1 RenderStrategy.InteractiveDialog [] rfl

/-- C8: for identical text, maximum width and font size, two calls to
the rasterizer return bitmaps of the same height, across every pair of
states the lazily initialized shared font system can be in. -/
theorem C8_height_deterministic (text : List Nat) (maxW fontSize : Nat)
    (st1 st2 : Option FontSystem)
    (h1 : fontStateReachable st1) (h2 : fontStateReachable st2) :
    bitmapHeight (render_text_to_bitmap text maxW fontSize st1).1
      = bitmapHeight (render_text_to_bitmap text maxW fontSize st2).1 := by
  rcases h1 with rfl | rfl <;> rcases h2 with rfl | rfl <;> rfl

theorem C8_height_deterministic_witness :
    bitmapHeight (render_text_to_bitmap [1605, 1578] 384 24 none).1
      = bitmapHeight (render_text_to_bitmap [1605, 1578] 384 24 (some defaultFontSystem)).1 :=
  C8_height_deterministic [1605, 1578] 384 24 none (some defaultFontSystem)
    (Or.inl rfl) (Or.inr rfl)

/-! ## Claims C9 - C10: frontend handlers -/

/-- C9: with no printer selected (empty `selectedPrinter`), every print
handler only sets the message "Please select a printer first" and
returns: it performs no backend invocation and leaves the loading flag
and the printer list unchanged. -/
theorem C9_no_printer_guard (s : AppState) (canvas backend : Except String String)
    (hsel : s.selectedPrinter = "") :
    printReceiptTrace s.selectedPrinter backend
        = [UiEvent.setMessage "Please select a printer first"]
      ∧ printReceiptHTMLTrace s.selectedPrinter backend
        = [UiEvent.setMessage "Please select a printer first"]
      ∧ printReceiptSilentTrace s.selectedPrinter backend
        = [UiEvent.setMessage "Please select a printer first"]
      ∧ printReceiptTextModeTrace s.selectedPrinter backend
        = [UiEvent.setMessage "Please select a printer first"]
      ∧ printReceiptAsImageTrace s.selectedPrinter canvas backend
        = [UiEvent.setMessage "Please select a printer first"]
      ∧ (∀ c, UiEvent.invokeBackend c ∉ [UiEvent.setMessage "Please select a printer first"])
      ∧ (applyEvents s [UiEvent.setMessage "Please select a printer first"]).loading = s.loading
      ∧ (applyEvents s [UiEvent.setMessage "Please select a printer first"]).printers = s.printers
      ∧ (applyEvents s [UiEvent.setMessage "Please select a printer first"]).message
        = "Please select a printer first" := by
  rw [hsel]
  refine ⟨?_, ?_, ?_, ?_, ?_, ?_, ?_, ?_, ?_⟩
  · simp [printReceiptTrace]
  · simp [printReceiptHTMLTrace]
  · simp [printReceiptSilentTrace]
  · simp [printReceiptTextModeTrace]
  · simp [printReceiptAsImageTrace]
  · intro c
    simp
  · simp [applyEvents, applyEvent]
  · simp [applyEvents, applyEvent]
  · simp [applyEvents, applyEvent]

theorem C9_no_printer_guard_witness :
    printReceiptTrace "" (Except.ok "done")
        = [UiEvent.setMessage "Please select a printer first"]
      ∧ printReceiptHTMLTrace "" (Except.ok "done")
        = [UiEvent.setMessage "Please select a printer first"]
      ∧ printReceiptSilentTrace "" (Except.ok "done")
        = [UiEvent.setMessage "Please select a printer first"]
      ∧ printReceiptTextModeTrace "" (Except.ok "done")
        = [UiEvent.setMessage "Please select a printer first"]
      ∧ printReceiptAsImageTrace "" (Except.ok "img") (Except.ok "done")
        = [UiEvent.setMessage "Please select a printer first"]
      ∧ (∀ c, UiEvent.invokeBackend c ∉ [UiEvent.setMessage "Please select a printer first"])
      ∧ (applyEvents (AppState.mk [] "" "ready" false)
          [UiEvent.setMessage "Please select a printer first"]).loading = false
      ∧ (applyEvents (AppState.mk [] "" "ready" false)
          [UiEvent.setMessage "Please select a printer first"]).printers = []
      ∧ (applyEvents (AppState.mk [] "" "ready" false)
          [UiEvent.setMessage "Please select a printer first"]).message
        = "Please select a printer first" :=
  C9_no_printer_guard (AppState.mk [] "" "ready" false) (Except.ok "img") (Except.ok "done") rfl

/-- C10: every asynchronous handler that can invoke a backend command
keeps the loading-flag discipline: replaying its trace, each backend
invocation happens while the loading flag is set (set to true before
the await), and the flag is clear when the trace ends on every exit
path, success or error. -/
theorem C10_loading_discipline (selected host : String) (port : Nat)
    (printersResult : Except String (List PrinterInfo))
    (canvas backend : Except String String) :
    tracksLoading false (loadPrintersTrace printersResult) = true
      ∧ tracksLoading false (printReceiptTrace selected backend) = true
      ∧ tracksLoading false (printReceiptHTMLTrace selected backend) = true
      ∧ tracksLoading false (printReceiptSilentTrace selected backend) = true
      ∧ tracksLoading false (printReceiptTextModeTrace selected backend) = true
      ∧ tracksLoading false (printReceiptAsImageTrace selected canvas backend) = true
      ∧ tracksLoading false (escposPrintTextTrace host port backend) = true
      ∧ tracksLoading false (escposPrintImageTrace host port canvas backend) = true
      ∧ tracksLoading false (escposDemoFormatArTrace host port backend) = true
      ∧ tracksLoading false (escposSerialCustomTrace backend) = true := by
  refine ⟨?_, ?_, ?_, ?_, ?_, ?_, ?_, ?_, ?_, ?_⟩
  · cases printersResult with
    | ok ps => cases ps <;> simp [loadPrintersTrace, tracksLoading]
    | error e => simp [loadPrintersTrace, tracksLoading]
  · by_cases h : selected = "" <;> cases backend <;>
      simp [printReceiptTrace, uiResult, tracksLoading, h]
  · by_cases h : selected = "" <;> cases backend <;>
      simp [printReceiptHTMLTrace, uiResult, tracksLoading, h]
  · by_cases h : selected = "" <;> cases backend <;>
      simp [printReceiptSilentTrace, uiResult, tracksLoading, h]
  · by_cases h : selected = "" <;> cases backend <;>
      simp [printReceiptTextModeTrace, uiResult, tracksLoading, h]
  · by_cases h : selected = "" <;> cases canvas <;> cases backend <;>
      simp [printReceiptAsImageTrace, uiResult, tracksLoading, h]
  · by_cases h : host = "" ∨ port = 0 <;> cases backend <;>
      simp [escposPrintTextTrace, uiResult, tracksLoading, h]
  · by_cases h : host = "" ∨ port = 0 <;> cases canvas <;> cases backend <;>
      simp [escposPrintImageTrace, uiResult, tracksLoading, h]
  · by_cases h : host = "" ∨ port = 0 <;> cases backend <;>
      simp [escposDemoFormatArTrace, uiResult, tracksLoading, h]
  · cases backend <;> simp [escposSerialCustomTrace, uiResult, tracksLoading]
